import Mathlib

/-
Verification of the `handling` package of the goddd cargo-shipping sample.

The package is a single orchestration service (`service.RegisterHandlingEvent`
in handling/service.go): validate the arguments, ask the factory to construct
a `HandlingEvent`, store it in the repository, then notify the event handler.

Embedding conventions:
* `time.Time` is modelled as a wrapped natural number of clock ticks; the Go
  zero value corresponds to `val = 0`, matching `Time.IsZero`.
* Go `error` values are modelled by the inductive `GoError`: the package-level
  sentinel `ErrInvalidArgument` is one constructor, every other error value is
  `GoError.other msg`.  A Go return of `error = nil` is `Option.none`.
* The three collaborators (`cargo.HandlingEventRepository`,
  `cargo.HandlingEventFactory`, `handling.EventHandler`) are Go interfaces
  whose implementations may carry arbitrary state, so each is modelled as a
  record of state-transformer functions over an abstract world type `σ`.
  `time.Now()` is an oracle: the current clock value is passed as the explicit
  parameter `now`.
* To observe which collaborator operations a run performs (and in which
  order), `loggingService` wraps arbitrary base collaborators so that every
  interface call is appended to a `List Call` trace threaded through the run.
-/

namespace Handling

/-- Model of Go `time.Time`: an absolute clock value in ticks.  The Go zero
value has `val = 0`. -/
structure Time where
  val : Nat
  deriving DecidableEq

/-- Model of Go `(time.Time).IsZero`. -/
def Time.IsZero (t : Time) : Bool :=
  t.val == 0

/-- Model of `cargo.TrackingID` (a string-typed identifier). -/
abbrev TrackingID := String

/-- Model of `voyage.Number` (a string-typed identifier). -/
abbrev Number := String

/-- Model of `location.UNLocode` (a string-typed identifier). -/
abbrev UNLocode := String

/-- Modelled from the spec: `cargo.HandlingEventType` is not in the visible
source.  Spec section 3: an enumerated classification (Receive, Load, Unload,
Customs, Claim) with a distinguished `NotHandled` sentinel meaning "no type
selected". -/
inductive HandlingEventType where
  | NotHandled
  | Receive
  | Load
  | Unload
  | Customs
  | Claim
  deriving DecidableEq

/-- Modelled from the spec: `cargo.HandlingEvent` is not in the visible
source.  Spec section 3: an immutable record combining the registration time,
the completion time, the TrackingID, the VoyageNumber, the UNLocode and the
HandlingEventType. -/
structure HandlingEvent where
  registrationTime : Time
  completionTime : Time
  trackingID : TrackingID
  voyageNumber : Number
  unLocode : UNLocode
  eventType : HandlingEventType
  deriving DecidableEq

/-- Model of Go `error` values as seen by this package: the package-level
sentinel `ErrInvalidArgument` (created once by `errors.New`) is distinct from
every other error value. -/
inductive GoError where
  | ErrInvalidArgument
  | other (msg : String)
  deriving DecidableEq

/-- Interface `cargo.HandlingEventRepository`, restricted to the one method
this package calls.  `Store` has no Go return value, so an implementation is a
state transformer on the implementation's world `σ`. -/
structure HandlingEventRepository (σ : Type) where
  Store : HandlingEvent → σ → σ

/-- Interface `cargo.HandlingEventFactory`, restricted to the one method this
package calls.  `CreateHandlingEvent(registrationTime, completionTime, id,
voyageNumber, unLocode, eventType)` returns `(HandlingEvent, error)`, modelled
as `Except GoError HandlingEvent`, and may update the implementation's
world. -/
structure HandlingEventFactory (σ : Type) where
  CreateHandlingEvent : Time → Time → TrackingID → Number → UNLocode →
    HandlingEventType → σ → σ × Except GoError HandlingEvent

/-- Interface `handling.EventHandler`: subscribing to registered handling
events via `CargoWasHandled`. -/
structure EventHandler (σ : Type) where
  CargoWasHandled : HandlingEvent → σ → σ

/-- The struct `handling.service` with its three collaborator fields. -/
structure service (σ : Type) where
  handlingEventRepository : HandlingEventRepository σ
  handlingEventFactory : HandlingEventFactory σ
  handlingEventHandler : EventHandler σ

/-- Method `(*service).RegisterHandlingEvent` of handling/service.go, line by
line: the validation guard, the factory call (with `time.Now()` passed in as
`now`), the repository store, the notification, and the returned `error`
(`none` is Go `nil`).  The collaborators' world `σ` is threaded explicitly. -/
def service.RegisterHandlingEvent {σ : Type} (s : service σ) (now : Time)
    (completionTime : Time) (trackingID : TrackingID) (voyage : Number)
    (loc : UNLocode) (eventType : HandlingEventType) (w : σ) :
    σ × Option GoError :=
  if completionTime.IsZero || trackingID == "" || voyage == "" || loc == "" ||
      eventType == HandlingEventType.NotHandled then
    (w, some GoError.ErrInvalidArgument)
  else
    match s.handlingEventFactory.CreateHandlingEvent now completionTime
        trackingID voyage loc eventType w with
    | (w1, Except.error err) => (w1, some err)
    | (w1, Except.ok e) =>
        let w2 := s.handlingEventRepository.Store e w1
        let w3 := s.handlingEventHandler.CargoWasHandled e w2
        (w3, none)

/-- Constructor `handling.NewService`. -/
def NewService {σ : Type} (r : HandlingEventRepository σ)
    (f : HandlingEventFactory σ) (h : EventHandler σ) : service σ :=
  { handlingEventRepository := r
    handlingEventFactory := f
    handlingEventHandler := h }

/-- Interface `inspection.Service`, restricted to the one method this package
calls: `InspectCargo(trackingID)`; its return value (if any) is not observed,
so an implementation is a state transformer. -/
structure InspectionService (σ : Type) where
  InspectCargo : TrackingID → σ → σ

/-- The struct `handling.handlingEventHandler`. -/
structure handlingEventHandler (σ : Type) where
  inspectionService : InspectionService σ

/-- Method `(*handlingEventHandler).CargoWasHandled`: forwards the event's
tracking ID to the inspection service. -/
def handlingEventHandler.CargoWasHandled {σ : Type}
    (h : handlingEventHandler σ) (event : HandlingEvent) (w : σ) : σ :=
  h.inspectionService.InspectCargo event.trackingID w

/-- Constructor `handling.NewEventHandler`: wraps an inspection service as an
`EventHandler`. -/
def NewEventHandler {σ : Type} (s : InspectionService σ) : EventHandler σ :=
  { CargoWasHandled := handlingEventHandler.CargoWasHandled
      { inspectionService := s } }

/-- One observable collaborator invocation, with its arguments. -/
inductive Call where
  | CreateHandlingEvent (registrationTime : Time) (completionTime : Time)
      (trackingID : TrackingID) (voyageNumber : Number) (unLocode : UNLocode)
      (eventType : HandlingEventType)
  | Store (e : HandlingEvent)
  | CargoWasHandled (e : HandlingEvent)
  deriving DecidableEq

/-- Is the call a factory `CreateHandlingEvent` call? -/
def Call.isCreate : Call → Bool
  | Call.CreateHandlingEvent _ _ _ _ _ _ => true
  | _ => false

/-- Is the call a repository `Store` call? -/
def Call.isStore : Call → Bool
  | Call.Store _ => true
  | _ => false

/-- Is the call an event-handler `CargoWasHandled` call? -/
def Call.isNotify : Call → Bool
  | Call.CargoWasHandled _ => true
  | _ => false

/-- Instrumentation: wrap arbitrary base collaborators so that every
interface call made through them is appended, with its arguments, to a
`List Call` trace carried alongside the base world. -/
def loggingService {σ : Type} (base : service σ) : service (σ × List Call) :=
  { handlingEventRepository :=
      { Store := fun e w =>
          (base.handlingEventRepository.Store e w.1, w.2 ++ [Call.Store e]) }
    handlingEventFactory :=
      { CreateHandlingEvent := fun rt ct tid vn ul et w =>
          let p := base.handlingEventFactory.CreateHandlingEvent rt ct tid vn
            ul et w.1
          ((p.1, w.2 ++ [Call.CreateHandlingEvent rt ct tid vn ul et]), p.2) }
    handlingEventHandler :=
      { CargoWasHandled := fun e w =>
          (base.handlingEventHandler.CargoWasHandled e w.1,
            w.2 ++ [Call.CargoWasHandled e]) } }

/-- Modelled from the spec: the factory's success contract.  Spec sections 3
and 6: the factory "constructs a validated domain event from raw fields" — a
`HandlingEvent` "combining registration time ..., completion time ...,
TrackingID, VoyageNumber, UNLocode, and HandlingEventType" — so whenever
`CreateHandlingEvent` succeeds, the returned event carries exactly the given
arguments as its fields.  (The factory's implementation lives in the `cargo`
package, outside the visible source.) -/
def FactoryMatchesSpec {σ : Type} (f : HandlingEventFactory σ) : Prop :=
  ∀ rt ct tid vn ul et w w1 e,
    f.CreateHandlingEvent rt ct tid vn ul et w = (w1, Except.ok e) →
    e = { registrationTime := rt, completionTime := ct, trackingID := tid,
          voyageNumber := vn, unLocode := ul, eventType := et }

/-- The five parameters of `RegisterHandlingEvent` as one record, used to
state that the method never writes to its parameter variables. -/
structure Args where
  completionTime : Time
  trackingID : TrackingID
  voyage : Number
  loc : UNLocode
  eventType : HandlingEventType
  deriving DecidableEq

/-- The body of `(*service).RegisterHandlingEvent` with the parameter
variables threaded explicitly as a record (each step reads from `a`, exactly
as the source reads the parameters; the source contains no assignment to any
of them) and their final values returned alongside the result. -/
def service.RegisterHandlingEventVars {σ : Type} (s : service σ) (now : Time)
    (a : Args) (w : σ) : Args × (σ × Option GoError) :=
  if a.completionTime.IsZero || a.trackingID == "" || a.voyage == "" ||
      a.loc == "" || a.eventType == HandlingEventType.NotHandled then
    (a, (w, some GoError.ErrInvalidArgument))
  else
    match s.handlingEventFactory.CreateHandlingEvent now a.completionTime
        a.trackingID a.voyage a.loc a.eventType w with
    | (w1, Except.error err) => (a, (w1, some err))
    | (w1, Except.ok e) =>
        let w2 := s.handlingEventRepository.Store e w1
        let w3 := s.handlingEventHandler.CargoWasHandled e w2
        (a, (w3, none))

/-- The body of `(*service).RegisterHandlingEvent` with the pointer receiver
`s` threaded explicitly (each step reads a field of `s`, exactly as the
source does; the source contains no assignment through the receiver) and the
receiver's final value returned alongside the result. -/
def service.RegisterHandlingEventRecv {σ : Type} (s : service σ) (now : Time)
    (completionTime : Time) (trackingID : TrackingID) (voyage : Number)
    (loc : UNLocode) (eventType : HandlingEventType) (w : σ) :
    service σ × (σ × Option GoError) :=
  if completionTime.IsZero || trackingID == "" || voyage == "" || loc == "" ||
      eventType == HandlingEventType.NotHandled then
    (s, (w, some GoError.ErrInvalidArgument))
  else
    match s.handlingEventFactory.CreateHandlingEvent now completionTime
        trackingID voyage loc eventType w with
    | (w1, Except.error err) => (s, (w1, some err))
    | (w1, Except.ok e) =>
        let w2 := s.handlingEventRepository.Store e w1
        let w3 := s.handlingEventHandler.CargoWasHandled e w2
        (s, (w3, none))

/-- An inspection-service test double that records the tracking IDs it is
asked to inspect, in order. -/
def loggingInspection : InspectionService (List TrackingID) :=
  { InspectCargo := fun tid log => log ++ [tid] }

/-- A stateless test double: the factory builds the event from its arguments
(satisfying the spec's factory contract), and the repository and handler do
nothing. -/
def unitService : service Unit :=
  { handlingEventRepository := { Store := fun _ w => w }
    handlingEventFactory :=
      { CreateHandlingEvent := fun rt ct tid vn ul et w =>
          (w, Except.ok (HandlingEvent.mk rt ct tid vn ul et)) }
    handlingEventHandler := { CargoWasHandled := fun _ w => w } }

/-- An event handler that does nothing, usable at any world type. -/
def doNothingHandler {σ : Type} : EventHandler σ :=
  { CargoWasHandled := fun _ w => w }

/-- A factory test double that rejects every request with the given error. -/
def failingFactory {σ : Type} (err : GoError) : HandlingEventFactory σ :=
  { CreateHandlingEvent := fun _ _ _ _ _ _ w => (w, Except.error err) }

/-- The concrete event the `unitService` factory builds in the witnesses:
registration time 5, completion time 3, scenario A's identifiers. -/
def sampleEvent : HandlingEvent :=
  { registrationTime := { val := 5 }, completionTime := { val := 3 },
    trackingID := "ABC123", voyageNumber := "V001", unLocode := "USNYC",
    eventType := HandlingEventType.Load }

/-- A second concrete event sharing `sampleEvent`'s tracking ID but differing
in every other field. -/
def sampleEventOther : HandlingEvent :=
  { registrationTime := { val := 9 }, completionTime := { val := 7 },
    trackingID := "ABC123", voyageNumber := "X999", unLocode := "NLRTM",
    eventType := HandlingEventType.Unload }

/-- A stateless service whose factory rejects every request with a fixed
"voyage not found" error (scenario D's test double). -/
def failingService : service Unit :=
  { handlingEventRepository := { Store := fun _ w => w }
    handlingEventFactory := failingFactory (GoError.other "voyage not found")
    handlingEventHandler := { CargoWasHandled := fun _ w => w } }

/-- Unfolding `RegisterHandlingEvent` when the validation guard is true. -/
theorem register_eq_of_guard_true {σ : Type} (s : service σ) (now : Time)
    {completionTime : Time} {trackingID : TrackingID} {voyage : Number}
    {loc : UNLocode} {eventType : HandlingEventType} (w : σ)
    (hg : (completionTime.IsZero || trackingID == "" || voyage == "" ||
      loc == "" || eventType == HandlingEventType.NotHandled) = true) :
    s.RegisterHandlingEvent now completionTime trackingID voyage loc eventType w
      = (w, some GoError.ErrInvalidArgument) := by
  simp [service.RegisterHandlingEvent, hg]

/-- Unfolding `RegisterHandlingEvent` when validation passes and the factory
fails. -/
theorem register_eq_of_factory_error {σ : Type} {s : service σ}
    {now completionTime : Time} {trackingID : TrackingID} {voyage : Number}
    {loc : UNLocode} {eventType : HandlingEventType} {w w1 : σ} {err : GoError}
    (hg : (completionTime.IsZero || trackingID == "" || voyage == "" ||
      loc == "" || eventType == HandlingEventType.NotHandled) = false)
    (hf : s.handlingEventFactory.CreateHandlingEvent now completionTime
      trackingID voyage loc eventType w = (w1, Except.error err)) :
    s.RegisterHandlingEvent now completionTime trackingID voyage loc eventType w
      = (w1, some err) := by
  simp [service.RegisterHandlingEvent, hg, hf]

/-- Unfolding `RegisterHandlingEvent` when validation passes and the factory
succeeds. -/
theorem register_eq_of_factory_ok {σ : Type} {s : service σ}
    {now completionTime : Time} {trackingID : TrackingID} {voyage : Number}
    {loc : UNLocode} {eventType : HandlingEventType} {w w1 : σ}
    {e : HandlingEvent}
    (hg : (completionTime.IsZero || trackingID == "" || voyage == "" ||
      loc == "" || eventType == HandlingEventType.NotHandled) = false)
    (hf : s.handlingEventFactory.CreateHandlingEvent now completionTime
      trackingID voyage loc eventType w = (w1, Except.ok e)) :
    s.RegisterHandlingEvent now completionTime trackingID voyage loc eventType w
      = (s.handlingEventHandler.CargoWasHandled e
          (s.handlingEventRepository.Store e w1), none) := by
  simp [service.RegisterHandlingEvent, hg, hf]

/-- The validation guard is false when all five preconditions hold. -/
theorem guard_eq_false {completionTime : Time} {trackingID : TrackingID}
    {voyage : Number} {loc : UNLocode} {eventType : HandlingEventType}
    (h1 : completionTime.IsZero = false) (h2 : trackingID ≠ "")
    (h3 : voyage ≠ "") (h4 : loc ≠ "")
    (h5 : eventType ≠ HandlingEventType.NotHandled) :
    (completionTime.IsZero || trackingID == "" || voyage == "" || loc == "" ||
      eventType == HandlingEventType.NotHandled) = false := by
  simp [h1, h2, h3, h4, h5]

/-- The instrumented factory call: it performs the base factory call and
appends one `CreateHandlingEvent` entry to the trace. -/
theorem loggingService_create {σ : Type} {base : service σ} {rt ct : Time}
    {tid : TrackingID} {vn : Number} {ul : UNLocode} {et : HandlingEventType}
    {w w1 : σ} {r : Except GoError HandlingEvent} (log : List Call)
    (hf : base.handlingEventFactory.CreateHandlingEvent rt ct tid vn ul et w
      = (w1, r)) :
    (loggingService base).handlingEventFactory.CreateHandlingEvent rt ct tid
      vn ul et (w, log)
      = ((w1, log ++ [Call.CreateHandlingEvent rt ct tid vn ul et]), r) := by
  simp [loggingService, hf]

/-- The instrumented run of a validated call whose factory succeeds: the new
world and the three-entry trace, with a `nil` result. -/
theorem register_ok_trace {σ : Type} {base : service σ}
    {now completionTime : Time} {trackingID : TrackingID} {voyage : Number}
    {loc : UNLocode} {eventType : HandlingEventType} {w w1 : σ}
    {e : HandlingEvent} (log : List Call)
    (hg : (completionTime.IsZero || trackingID == "" || voyage == "" ||
      loc == "" || eventType == HandlingEventType.NotHandled) = false)
    (hf : base.handlingEventFactory.CreateHandlingEvent now completionTime
      trackingID voyage loc eventType w = (w1, Except.ok e)) :
    (loggingService base).RegisterHandlingEvent now completionTime trackingID
      voyage loc eventType (w, log) =
      ((base.handlingEventHandler.CargoWasHandled e
          (base.handlingEventRepository.Store e w1),
        log ++ [Call.CreateHandlingEvent now completionTime trackingID voyage
          loc eventType, Call.Store e, Call.CargoWasHandled e]), none) := by
  rw [register_eq_of_factory_ok hg (loggingService_create log hf)]
  simp [loggingService]

/-- The `unitService` factory satisfies the spec's factory contract. -/
theorem unitService_factory_spec :
    FactoryMatchesSpec unitService.handlingEventFactory := by
  intro rt ct tid vn ul et w w1 e h
  simp [unitService] at h
  exact h.symm

/-- C1: for a call whose arguments pass validation (non-zero completion time,
non-empty tracking ID, voyage number and location, event type not
`NotHandled`) and whose factory call succeeds with event `e`, the
instrumented run performs exactly the factory call, then `Store e`, then
`CargoWasHandled e` — so the repository's `Store` is invoked exactly once
with the factory's event, the notifier's `CargoWasHandled` exactly once with
that same event, `Store` before `CargoWasHandled` — and the call returns Go
`nil`. -/
theorem register_success_stores_then_notifies {σ : Type} (base : service σ)
    (w : σ) (log : List Call) (now completionTime : Time)
    (trackingID : TrackingID) (voyage : Number) (loc : UNLocode)
    (eventType : HandlingEventType) (w1 : σ) (e : HandlingEvent)
    (h1 : completionTime.IsZero = false) (h2 : trackingID ≠ "")
    (h3 : voyage ≠ "") (h4 : loc ≠ "")
    (h5 : eventType ≠ HandlingEventType.NotHandled)
    (hf : base.handlingEventFactory.CreateHandlingEvent now completionTime
      trackingID voyage loc eventType w = (w1, Except.ok e)) :
    (loggingService base).RegisterHandlingEvent now completionTime trackingID
      voyage loc eventType (w, log) =
      ((base.handlingEventHandler.CargoWasHandled e
          (base.handlingEventRepository.Store e w1),
        log ++ [Call.CreateHandlingEvent now completionTime trackingID voyage
          loc eventType, Call.Store e, Call.CargoWasHandled e]), none) :=
  register_ok_trace log (guard_eq_false h1 h2 h3 h4 h5) hf

/-- Witness for C1 at scenario A: clock at 5, completion time 3, "ABC123",
"V001", "USNYC", `Load`, run from an empty trace. -/
theorem register_success_stores_then_notifies_witness :
    (loggingService unitService).RegisterHandlingEvent { val := 5 }
      { val := 3 } "ABC123" "V001" "USNYC" HandlingEventType.Load ((), []) =
      (((),
        [Call.CreateHandlingEvent { val := 5 } { val := 3 } "ABC123" "V001"
          "USNYC" HandlingEventType.Load, Call.Store sampleEvent,
          Call.CargoWasHandled sampleEvent]), none) :=
  register_success_stores_then_notifies unitService () [] { val := 5 }
    { val := 3 } "ABC123" "V001" "USNYC" HandlingEventType.Load () sampleEvent
    (by decide) (by decide) (by decide) (by decide) (by decide) rfl

/-- C2: when the completion time is zero, or the tracking ID, voyage number
or location is empty, or the event type is the `NotHandled` sentinel, the
call returns the `ErrInvalidArgument` sentinel and leaves the world of every
collaborator implementation untouched; instrumented, the trace is unchanged —
no factory, repository or notifier call happens. -/
theorem register_invalid_argument_no_side_effects {σ : Type} (s : service σ)
    (w : σ) (log : List Call) (now completionTime : Time)
    (trackingID : TrackingID) (voyage : Number) (loc : UNLocode)
    (eventType : HandlingEventType)
    (h : completionTime.IsZero = true ∨ trackingID = "" ∨ voyage = "" ∨
      loc = "" ∨ eventType = HandlingEventType.NotHandled) :
    s.RegisterHandlingEvent now completionTime trackingID voyage loc eventType
        w = (w, some GoError.ErrInvalidArgument) ∧
    (loggingService s).RegisterHandlingEvent now completionTime trackingID
      voyage loc eventType (w, log)
      = ((w, log), some GoError.ErrInvalidArgument) := by
  have hg : (completionTime.IsZero || trackingID == "" || voyage == "" ||
      loc == "" || eventType == HandlingEventType.NotHandled) = true := by
    rcases h with h | h | h | h | h <;> simp [h]
  exact ⟨register_eq_of_guard_true s now w hg,
    register_eq_of_guard_true (loggingService s) now (w, log) hg⟩

/-- Witness for C2 at scenario B: zero completion time, all other arguments
valid. -/
theorem register_invalid_argument_no_side_effects_witness :
    unitService.RegisterHandlingEvent { val := 5 } { val := 0 } "ABC123"
      "V001" "USNYC" HandlingEventType.Load ()
      = ((), some GoError.ErrInvalidArgument) ∧
    (loggingService unitService).RegisterHandlingEvent { val := 5 }
      { val := 0 } "ABC123" "V001" "USNYC" HandlingEventType.Load ((), [])
      = (((), []), some GoError.ErrInvalidArgument) :=
  register_invalid_argument_no_side_effects unitService () [] { val := 5 }
    { val := 0 } "ABC123" "V001" "USNYC" HandlingEventType.Load
    (Or.inl (by decide))

/-- C3: with arguments passing validation, when the factory rejects the
request with error `err`, the call returns exactly that error value, and the
instrumented trace gains only the factory call — `Store` and
`CargoWasHandled` are not invoked. -/
theorem register_factory_error_propagated {σ : Type} (s : service σ) (w : σ)
    (log : List Call) (now completionTime : Time) (trackingID : TrackingID)
    (voyage : Number) (loc : UNLocode) (eventType : HandlingEventType)
    (w1 : σ) (err : GoError)
    (h1 : completionTime.IsZero = false) (h2 : trackingID ≠ "")
    (h3 : voyage ≠ "") (h4 : loc ≠ "")
    (h5 : eventType ≠ HandlingEventType.NotHandled)
    (hf : s.handlingEventFactory.CreateHandlingEvent now completionTime
      trackingID voyage loc eventType w = (w1, Except.error err)) :
    s.RegisterHandlingEvent now completionTime trackingID voyage loc eventType
        w = (w1, some err) ∧
    (loggingService s).RegisterHandlingEvent now completionTime trackingID
      voyage loc eventType (w, log)
      = ((w1, log ++ [Call.CreateHandlingEvent now completionTime trackingID
          voyage loc eventType]), some err) :=
  ⟨register_eq_of_factory_error (guard_eq_false h1 h2 h3 h4 h5) hf,
    register_eq_of_factory_error (guard_eq_false h1 h2 h3 h4 h5)
      (loggingService_create log hf)⟩

/-- Witness for C3 at scenario D: valid-shaped arguments, factory answering
"voyage not found". -/
theorem register_factory_error_propagated_witness :
    failingService.RegisterHandlingEvent { val := 5 } { val := 3 } "ABC123"
      "V001" "USNYC" HandlingEventType.Load ()
      = ((), some (GoError.other "voyage not found")) ∧
    (loggingService failingService).RegisterHandlingEvent { val := 5 }
      { val := 3 } "ABC123" "V001" "USNYC" HandlingEventType.Load ((), [])
      = (((), [Call.CreateHandlingEvent { val := 5 } { val := 3 } "ABC123"
          "V001" "USNYC" HandlingEventType.Load]),
        some (GoError.other "voyage not found")) :=
  register_factory_error_propagated failingService () [] { val := 5 }
    { val := 3 } "ABC123" "V001" "USNYC" HandlingEventType.Load ()
    (GoError.other "voyage not found") (by decide) (by decide) (by decide)
    (by decide) (by decide) rfl

/-- C4: under the spec's factory contract, the event handed to `Store` on a
successful registration carries exactly the caller's completion time,
tracking ID, voyage number, location and event type, and its registration
time is the clock value `now` read at the point of the call (`time.Now()`),
hence at or after the moment the call was made. -/
theorem register_stored_event_matches_inputs {σ : Type} (s : service σ)
    (w : σ) (log : List Call) (now completionTime : Time)
    (trackingID : TrackingID) (voyage : Number) (loc : UNLocode)
    (eventType : HandlingEventType) (w1 : σ) (e : HandlingEvent)
    (hspec : FactoryMatchesSpec s.handlingEventFactory)
    (h1 : completionTime.IsZero = false) (h2 : trackingID ≠ "")
    (h3 : voyage ≠ "") (h4 : loc ≠ "")
    (h5 : eventType ≠ HandlingEventType.NotHandled)
    (hf : s.handlingEventFactory.CreateHandlingEvent now completionTime
      trackingID voyage loc eventType w = (w1, Except.ok e)) :
    e.registrationTime = now ∧ e.completionTime = completionTime ∧
    e.trackingID = trackingID ∧ e.voyageNumber = voyage ∧
    e.unLocode = loc ∧ e.eventType = eventType ∧
    (loggingService s).RegisterHandlingEvent now completionTime trackingID
      voyage loc eventType (w, log) =
      ((s.handlingEventHandler.CargoWasHandled e
          (s.handlingEventRepository.Store e w1),
        log ++ [Call.CreateHandlingEvent now completionTime trackingID voyage
          loc eventType, Call.Store e, Call.CargoWasHandled e]), none) := by
  have he := hspec now completionTime trackingID voyage loc eventType w w1 e hf
  subst he
  exact ⟨rfl, rfl, rfl, rfl, rfl, rfl,
    register_ok_trace log (guard_eq_false h1 h2 h3 h4 h5) hf⟩

/-- Witness for C4 at scenario A's arguments with the clock at 5. -/
theorem register_stored_event_matches_inputs_witness :
    sampleEvent.registrationTime = { val := 5 } ∧
    sampleEvent.completionTime = { val := 3 } ∧
    sampleEvent.trackingID = "ABC123" ∧ sampleEvent.voyageNumber = "V001" ∧
    sampleEvent.unLocode = "USNYC" ∧
    sampleEvent.eventType = HandlingEventType.Load ∧
    (loggingService unitService).RegisterHandlingEvent { val := 5 }
      { val := 3 } "ABC123" "V001" "USNYC" HandlingEventType.Load ((), []) =
      ((unitService.handlingEventHandler.CargoWasHandled sampleEvent
          (unitService.handlingEventRepository.Store sampleEvent ()),
        [] ++ [Call.CreateHandlingEvent { val := 5 } { val := 3 } "ABC123"
          "V001" "USNYC" HandlingEventType.Load, Call.Store sampleEvent,
          Call.CargoWasHandled sampleEvent]), none) :=
  register_stored_event_matches_inputs unitService () [] { val := 5 }
    { val := 3 } "ABC123" "V001" "USNYC" HandlingEventType.Load () sampleEvent
    unitService_factory_spec (by decide) (by decide) (by decide) (by decide)
    (by decide) rfl

/-- C5: once validation has passed and the factory has succeeded, the call
returns Go `nil` whatever event handler the service is built with: every
notifier implementation — including one that does nothing — yields the same
return value. -/
theorem register_result_independent_of_notifier {σ : Type} (s : service σ)
    (w : σ) (now completionTime : Time) (trackingID : TrackingID)
    (voyage : Number) (loc : UNLocode) (eventType : HandlingEventType)
    (w1 : σ) (e : HandlingEvent)
    (h1 : completionTime.IsZero = false) (h2 : trackingID ≠ "")
    (h3 : voyage ≠ "") (h4 : loc ≠ "")
    (h5 : eventType ≠ HandlingEventType.NotHandled)
    (hf : s.handlingEventFactory.CreateHandlingEvent now completionTime
      trackingID voyage loc eventType w = (w1, Except.ok e)) :
    ∀ h : EventHandler σ,
      (service.RegisterHandlingEvent { s with handlingEventHandler := h } now
        completionTime trackingID voyage loc eventType w).2 = none := by
  intro h
  have hf' : (service.mk s.handlingEventRepository s.handlingEventFactory
      h).handlingEventFactory.CreateHandlingEvent now completionTime
      trackingID voyage loc eventType w = (w1, Except.ok e) := hf
  rw [show ({ s with handlingEventHandler := h } : service σ)
      = service.mk s.handlingEventRepository s.handlingEventFactory h from rfl,
    register_eq_of_factory_ok (guard_eq_false h1 h2 h3 h4 h5) hf']

/-- Witness for C5: the same valid call succeeds under a trace-appending
handler and under the do-nothing handler. -/
theorem register_result_independent_of_notifier_witness :
    (service.RegisterHandlingEvent { loggingService unitService with
        handlingEventHandler := (loggingService unitService).handlingEventHandler }
      { val := 5 } { val := 3 } "ABC123" "V001" "USNYC"
      HandlingEventType.Load ((), [])).2 = none ∧
    (service.RegisterHandlingEvent { loggingService unitService with
        handlingEventHandler := doNothingHandler } { val := 5 } { val := 3 }
      "ABC123" "V001" "USNYC" HandlingEventType.Load ((), [])).2 = none :=
  ⟨register_result_independent_of_notifier (loggingService unitService)
      ((), []) { val := 5 } { val := 3 } "ABC123" "V001" "USNYC"
      HandlingEventType.Load (((), [Call.CreateHandlingEvent { val := 5 }
        { val := 3 } "ABC123" "V001" "USNYC" HandlingEventType.Load]))
      sampleEvent (by decide) (by decide) (by decide) (by decide) (by decide)
      rfl (loggingService unitService).handlingEventHandler,
    register_result_independent_of_notifier (loggingService unitService)
      ((), []) { val := 5 } { val := 3 } "ABC123" "V001" "USNYC"
      HandlingEventType.Load (((), [Call.CreateHandlingEvent { val := 5 }
        { val := 3 } "ABC123" "V001" "USNYC" HandlingEventType.Load]))
      sampleEvent (by decide) (by decide) (by decide) (by decide) (by decide)
      rfl doNothingHandler⟩

/-- C6: the default event handler built by `NewEventHandler` forwards exactly
the event's tracking ID to the inspection service: two events agreeing on
tracking ID — whatever their other fields — produce identical inspection
calls, and, instrumented, one `CargoWasHandled` performs exactly one
`InspectCargo` call carrying that tracking ID. -/
theorem cargoWasHandled_forwards_only_trackingID {σ : Type}
    (insp : InspectionService σ) (e1 e2 : HandlingEvent) (w : σ)
    (log : List TrackingID) (h : e1.trackingID = e2.trackingID) :
    (NewEventHandler insp).CargoWasHandled e1 w
      = (NewEventHandler insp).CargoWasHandled e2 w ∧
    (NewEventHandler loggingInspection).CargoWasHandled e1 log
      = log ++ [e1.trackingID] := by
  constructor
  · simp [NewEventHandler, handlingEventHandler.CargoWasHandled, h]
  · simp [NewEventHandler, handlingEventHandler.CargoWasHandled,
      loggingInspection]

/-- Witness for C6: two events sharing tracking ID "ABC123" but differing in
every other field. -/
theorem cargoWasHandled_forwards_only_trackingID_witness :
    (NewEventHandler loggingInspection).CargoWasHandled sampleEvent []
      = (NewEventHandler loggingInspection).CargoWasHandled sampleEventOther []
      ∧
    (NewEventHandler loggingInspection).CargoWasHandled sampleEvent []
      = [] ++ [sampleEvent.trackingID] :=
  cargoWasHandled_forwards_only_trackingID loggingInspection sampleEvent
    sampleEventOther [] [] (by decide)

/-- C7: `RegisterHandlingEvent` never writes to its parameter variables:
threading them through the body explicitly, their final values equal the
values passed in, and the threaded body computes exactly what
`RegisterHandlingEvent` computes. -/
theorem register_does_not_mutate_arguments {σ : Type} (s : service σ)
    (now : Time) (a : Args) (w : σ) :
    (s.RegisterHandlingEventVars now a w).1 = a ∧
    (s.RegisterHandlingEventVars now a w).2 =
      s.RegisterHandlingEvent now a.completionTime a.trackingID a.voyage a.loc
        a.eventType w := by
  cases hg : (a.completionTime.IsZero || a.trackingID == "" ||
      a.voyage == "" || a.loc == "" ||
      a.eventType == HandlingEventType.NotHandled) with
  | true =>
      constructor <;>
        simp [service.RegisterHandlingEventVars, service.RegisterHandlingEvent,
          hg]
  | false =>
      rcases hfac : s.handlingEventFactory.CreateHandlingEvent now
          a.completionTime a.trackingID a.voyage a.loc a.eventType w
        with ⟨w1, r⟩
      cases r <;> constructor <;>
        simp [service.RegisterHandlingEventVars, service.RegisterHandlingEvent,
          hg, hfac]

/-- C8: in any single invocation, over arbitrary collaborators, the
instrumented trace contains at most one factory call, at most one `Store`
and at most one `CargoWasHandled` — the core retries nothing — and the
outcome is a returned `Option GoError` value (Go `nil` or an error), never an
exception. -/
theorem register_calls_each_collaborator_at_most_once {σ : Type}
    (base : service σ) (w : σ) (now completionTime : Time)
    (trackingID : TrackingID) (voyage : Number) (loc : UNLocode)
    (eventType : HandlingEventType) :
    (((loggingService base).RegisterHandlingEvent now completionTime
        trackingID voyage loc eventType (w, [])).1.2.countP Call.isCreate ≤ 1)
      ∧
    (((loggingService base).RegisterHandlingEvent now completionTime
        trackingID voyage loc eventType (w, [])).1.2.countP Call.isStore ≤ 1)
      ∧
    (((loggingService base).RegisterHandlingEvent now completionTime
        trackingID voyage loc eventType (w, [])).1.2.countP Call.isNotify ≤ 1)
      := by
  cases hg : (completionTime.IsZero || trackingID == "" || voyage == "" ||
      loc == "" || eventType == HandlingEventType.NotHandled) with
  | true =>
      rw [register_eq_of_guard_true (loggingService base) now (w, []) hg]
      simp
  | false =>
      rcases hfac : base.handlingEventFactory.CreateHandlingEvent now
          completionTime trackingID voyage loc eventType w with ⟨w1, r⟩
      cases r with
      | error err =>
          rw [register_eq_of_factory_error hg (loggingService_create [] hfac)]
          simp [Call.isCreate, Call.isStore, Call.isNotify]
      | ok e =>
          rw [register_ok_trace [] hg hfac]
          simp [Call.isCreate, Call.isStore, Call.isNotify]

/-- C9: the returned error value is always exactly one of three things: Go
`nil`, the single `ErrInvalidArgument` sentinel (whichever precondition was
violated, and however many), or the error value the factory returned. -/
theorem register_result_trichotomy {σ : Type} (s : service σ) (w : σ)
    (now completionTime : Time) (trackingID : TrackingID) (voyage : Number)
    (loc : UNLocode) (eventType : HandlingEventType) :
    (s.RegisterHandlingEvent now completionTime trackingID voyage loc
        eventType w).2 = none ∨
    (s.RegisterHandlingEvent now completionTime trackingID voyage loc
        eventType w).2 = some GoError.ErrInvalidArgument ∨
    (∃ w1 err, s.handlingEventFactory.CreateHandlingEvent now completionTime
        trackingID voyage loc eventType w = (w1, Except.error err) ∧
      (s.RegisterHandlingEvent now completionTime trackingID voyage loc
        eventType w).2 = some err) := by
  cases hg : (completionTime.IsZero || trackingID == "" || voyage == "" ||
      loc == "" || eventType == HandlingEventType.NotHandled) with
  | true =>
      right; left
      rw [register_eq_of_guard_true s now w hg]
  | false =>
      rcases hfac : s.handlingEventFactory.CreateHandlingEvent now
          completionTime trackingID voyage loc eventType w with ⟨w1, r⟩
      cases r with
      | error err =>
          right; right
          refine ⟨w1, err, rfl, ?_⟩
          rw [register_eq_of_factory_error hg hfac]
      | ok e =>
          left
          rw [register_eq_of_factory_ok hg hfac]

/-- C10: `NewService` fixes the three collaborator references as the
service's only state, and the method, with its pointer receiver threaded
explicitly, returns the receiver unchanged while computing the same result —
so every invocation on the same service value uses the same repository,
factory and notifier. -/
theorem service_collaborators_fixed {σ : Type} (r : HandlingEventRepository σ)
    (f : HandlingEventFactory σ) (h : EventHandler σ) (s : service σ)
    (now completionTime : Time) (trackingID : TrackingID) (voyage : Number)
    (loc : UNLocode) (eventType : HandlingEventType) (w : σ) :
    (NewService r f h).handlingEventRepository = r ∧
    (NewService r f h).handlingEventFactory = f ∧
    (NewService r f h).handlingEventHandler = h ∧
    (s.RegisterHandlingEventRecv now completionTime trackingID voyage loc
      eventType w).1 = s ∧
    (s.RegisterHandlingEventRecv now completionTime trackingID voyage loc
      eventType w).2
      = s.RegisterHandlingEvent now completionTime trackingID voyage loc
          eventType w := by
  refine ⟨rfl, rfl, rfl, ?_, ?_⟩ <;>
    cases hg : (completionTime.IsZero || trackingID == "" || voyage == "" ||
        loc == "" || eventType == HandlingEventType.NotHandled) with
    | true =>
        simp [service.RegisterHandlingEventRecv, service.RegisterHandlingEvent,
          hg]
    | false =>
        rcases hfac : s.handlingEventFactory.CreateHandlingEvent now
            completionTime trackingID voyage loc eventType w with ⟨w1, r'⟩
        cases r' <;>
          simp [service.RegisterHandlingEventRecv,
            service.RegisterHandlingEvent, hg, hfac]

end Handling
